import Mathlib

/-!
Shallow embedding of the salary-prediction engine in `Python/main.py`
(multi-factor ensemble: normalization, heuristic text extraction,
adjustment factors, candidate generation, weighted blending).

Python dicts are modelled as association lists looked up with `alookup`
(first match wins, as Python dict keys are unique); Python floats are
modelled as exact rationals (all literals in the source are decimal);
fallible dict indexing `d[k]` is modelled with `Option`; `d.get(k, v)`
is `(alookup k d).getD v`.  Text is handled as `List Char`; Python
`str.lower`/`str.upper` act on the ASCII range, which is all the source
tables and both this model and the scenarios exercise.
-/

namespace Salary

/-- Association-list lookup, modelling Python dict access (keys unique). -/
def alookup {β : Type} (k : String) : List (String × β) → Option β
  | [] => none
  | (k1, v) :: rest => if k = k1 then some v else alookup k rest

-- ---------------------------------------------------------------------------
-- Character/string helpers mirroring the Python string operations used.
-- ---------------------------------------------------------------------------

/-- ASCII lower-casing of one character (Python `str.lower` on ASCII). -/
def lowerChar (c : Char) : Char :=
  if 'A' ≤ c ∧ c ≤ 'Z' then Char.ofNat (c.toNat + 32) else c

/-- ASCII upper-casing of one character (Python `str.upper` on ASCII). -/
def upperChar (c : Char) : Char :=
  if 'a' ≤ c ∧ c ≤ 'z' then Char.ofNat (c.toNat - 32) else c

/-- Python `str.strip()`: drop whitespace from both ends. -/
def pyStripList (l : List Char) : List Char :=
  ((l.dropWhile Char.isWhitespace).reverse.dropWhile Char.isWhitespace).reverse

def pyStripLower (s : String) : List Char :=
  (pyStripList s.toList).map lowerChar

def pyStripUpper (s : String) : List Char :=
  (pyStripList s.toList).map upperChar

/-- Python `s.replace(" ", "_")`. -/
def spaceToUnderscore (l : List Char) : List Char :=
  l.map fun c => if c = ' ' then '_' else c

/-- Python `s.replace("_", " ")`. -/
def underscoreToSpace (l : List Char) : List Char :=
  l.map fun c => if c = '_' then ' ' else c

/-- `startsWith p l`: `p` begins `l` (Python substring machinery). -/
def startsWith : List Char → List Char → Bool
  | [], _ => true
  | _ :: _, [] => false
  | a :: ps, b :: ls => a == b && startsWith ps ls

/-- `hasSub p l`: Python `p in l` substring containment. -/
def hasSub (p : List Char) : List Char → Bool
  | [] => startsWith p []
  | c :: rest => startsWith p (c :: rest) || hasSub p rest

/-- Regex word character (`\w` over the ASCII inputs involved). -/
def isWordChar (c : Char) : Bool :=
  c.isAlpha || ('0' ≤ c && c ≤ '9') || c = '_'

/-- One position of `re.search(rf"\b{k}\b", t)` for a pattern `p` that
begins and ends with a word character: `p` is a prefix here, the previous
character (if any) is a non-word character, and so is the one after. -/
def wbMatchAt (p t : List Char) (prev : Option Char) : Bool :=
  startsWith p t &&
  (match prev with
   | none => true
   | some c => !isWordChar c) &&
  (match t.drop p.length with
   | [] => true
   | c :: _ => !isWordChar c)

def wbSearchAux (p : List Char) (prev : Option Char) : List Char → Bool
  | [] => wbMatchAt p [] prev
  | c :: rest => wbMatchAt p (c :: rest) prev || wbSearchAux p (some c) rest

/-- `re.search(rf"\b{k}\b", t)` as a Boolean, for the level-alias keys. -/
def wbSearch (p t : List Char) : Bool :=
  wbSearchAux p none t

/-- Lexicographic code-point order on strings (Python `str` ordering). -/
def charListLe : List Char → List Char → Bool
  | [], _ => true
  | _ :: _, [] => false
  | a :: as1, b :: bs1 =>
    if a.val < b.val then true
    else if b.val < a.val then false
    else charListLe as1 bs1

def strLe (a b : String) : Bool := charListLe a.toList b.toList

def insertSorted (x : String) : List String → List String
  | [] => [x]
  | y :: ys => if strLe x y then x :: y :: ys else y :: insertSorted x ys

def sortStr (l : List String) : List String :=
  l.foldr insertSorted []

/-- Python `sorted(set(l))`: deduplicate, then sort lexicographically. -/
def sortedDedup (l : List String) : List String :=
  sortStr l.dedup

/-- Python `opt or fallback` on an optional string. -/
def pyOr (o : Option String) (fallback : String) : String :=
  match o with
  | none => fallback
  | some s => if s = "" then fallback else s

-- ---------------------------------------------------------------------------
-- Lookup tables (module-level dict literals of the source, in source order).
-- ---------------------------------------------------------------------------

/-- `BASELINES_2024`: role key → level → (low, high) USD pair. -/
def BASELINES_2024 : List (String × List (String × ℚ × ℚ)) :=
  [("cybersecurity_engineer",
     [("entry", (90000, 120000)), ("mid", (120000, 160000)),
      ("senior", (160000, 210000))]),
   ("cloud_security_engineer",
     [("entry", (105000, 135000)), ("mid", (135000, 175000)),
      ("senior", (175000, 230000))]),
   ("devsecops_engineer",
     [("entry", (100000, 130000)), ("mid", (130000, 170000)),
      ("senior", (170000, 225000))]),
   ("appsec_engineer",
     [("entry", (100000, 135000)), ("mid", (135000, 180000)),
      ("senior", (180000, 240000))]),
   ("soc_analyst",
     [("entry", (70000, 95000)), ("mid", (95000, 125000)),
      ("senior", (125000, 160000))]),
   ("incident_response_dfir",
     [("entry", (95000, 125000)), ("mid", (125000, 165000)),
      ("senior", (165000, 220000))]),
   ("threat_hunter",
     [("entry", (100000, 130000)), ("mid", (130000, 175000)),
      ("senior", (175000, 230000))]),
   ("penetration_tester",
     [("entry", (85000, 115000)), ("mid", (115000, 155000)),
      ("senior", (155000, 210000))]),
   ("iam_engineer",
     [("entry", (90000, 120000)), ("mid", (120000, 160000)),
      ("senior", (160000, 210000))]),
   ("security_architect",
     [("entry", (135000, 175000)), ("mid", (175000, 220000)),
      ("senior", (220000, 280000))]),
   ("grc_analyst",
     [("entry", (80000, 105000)), ("mid", (105000, 140000)),
      ("senior", (140000, 185000))])]

/-- `CAGR_BY_ROLE`: annual growth rate 2024→2026 per role family. -/
def CAGR_BY_ROLE : List (String × ℚ) :=
  [("default", 0.05),
   ("cloud_security_engineer", 0.07),
   ("devsecops_engineer", 0.07),
   ("appsec_engineer", 0.06),
   ("security_architect", 0.06)]

/-- `INFLATION_2024_TO_2026`. -/
def INFLATION_2024_TO_2026 : ℚ := 1.07

/-- `GEO_MULTIPLIER`: US state code → multiplier. -/
def GEO_MULTIPLIER : List (String × ℚ) :=
  [("CA", 1.18), ("NY", 1.15), ("WA", 1.12), ("MA", 1.10), ("DC", 1.12),
   ("VA", 1.07), ("TX", 1.03), ("FL", 1.00), ("IL", 1.02), ("CO", 1.05),
   ("GA", 0.98), ("NC", 0.98), ("AZ", 0.97), ("OH", 0.95), ("PA", 0.97),
   ("REMOTE", 1.00), ("DEFAULT", 1.00)]

/-- `SKILL_PREMIUM`: skill/cert token → additive premium. -/
def SKILL_PREMIUM : List (String × ℚ) :=
  [("aws_security", 0.05), ("azure_security", 0.05), ("gcp_security", 0.05),
   ("kubernetes", 0.04), ("terraform", 0.03), ("containers", 0.03),
   ("cnapp", 0.04), ("cspm", 0.03),
   ("zero_trust", 0.04), ("iam", 0.03), ("okta", 0.02), ("entra_id", 0.02),
   ("sso_saml_oidc", 0.02), ("siem", 0.03), ("soar", 0.03), ("edr", 0.02),
   ("dfir", 0.05), ("incident_response", 0.04), ("threat_hunting", 0.04),
   ("malware_analysis", 0.04), ("reverse_engineering", 0.04),
   ("secure_sdlc", 0.03), ("sast_dast", 0.03), ("threat_modeling", 0.03),
   ("oscp", 0.06), ("gcih", 0.05), ("gcfa", 0.05), ("gpen", 0.05),
   ("cissp", 0.05), ("ccsp", 0.05), ("security_plus", 0.02)]

/-- `ROLE_ALIASES`: role phrase → canonical role key. -/
def ROLE_ALIASES : List (String × String) :=
  [("security engineer", "cybersecurity_engineer"),
   ("cybersecurity engineer", "cybersecurity_engineer"),
   ("cyber security engineer", "cybersecurity_engineer"),
   ("cloud security engineer", "cloud_security_engineer"),
   ("devsecops engineer", "devsecops_engineer"),
   ("application security engineer", "appsec_engineer"),
   ("appsec engineer", "appsec_engineer"),
   ("soc analyst", "soc_analyst"),
   ("incident response", "incident_response_dfir"),
   ("dfir", "incident_response_dfir"),
   ("threat hunter", "threat_hunter"),
   ("penetration tester", "penetration_tester"),
   ("pen tester", "penetration_tester"),
   ("red team", "penetration_tester"),
   ("iam engineer", "iam_engineer"),
   ("security architect", "security_architect"),
   ("grc analyst", "grc_analyst")]

/-- `LEVEL_ALIASES`: level phrase → canonical level key. -/
def LEVEL_ALIASES : List (String × String) :=
  [("junior", "entry"), ("entry", "entry"), ("entry-level", "entry"),
   ("mid", "mid"), ("mid-level", "mid"), ("intermediate", "mid"),
   ("senior", "senior"), ("lead", "senior"), ("staff", "senior"),
   ("principal", "senior")]

/-- The explicit certification strings scanned by `extract_from_text`. -/
def CERT_STRINGS : List String :=
  ["oscp", "cissp", "ccsp", "gcih", "gcfa", "gpen", "security+",
   "security plus"]

/-- Weight configuration dict; the engine reads skills/geo/regression. -/
structure Weights where
  cagr : ℚ
  inflation : ℚ
  skills : ℚ
  geo : ℚ
  regression : ℚ

/-- `DEFAULT_WEIGHTS`. -/
def DEFAULT_WEIGHTS : Weights :=
  { cagr := 0.20, inflation := 0.20, skills := 0.20, geo := 0.20,
    regression := 0.20 }

-- ---------------------------------------------------------------------------
-- Data model
-- ---------------------------------------------------------------------------

structure PredictionInput where
  role : String
  level : String
  years_experience : ℚ
  state : String
  skills : List String
  job_description : Option String := none

structure PredictionBreakdown where
  baseline_low : ℚ
  baseline_high : ℚ
  cagr_low : ℚ
  cagr_high : ℚ
  inflation_low : ℚ
  inflation_high : ℚ
  skills_multiplier : ℚ
  geo_multiplier : ℚ
  regression_adjustment : ℚ
  final_low : ℚ
  final_mid : ℚ
  final_high : ℚ

/-- Result dict of `extract_from_text` (`None` sentinels → `Option`). -/
structure Extracted where
  role_key : Option String
  level : Option String
  skills : List String

-- ---------------------------------------------------------------------------
-- Model 1: heuristic text extraction
-- ---------------------------------------------------------------------------

/-- `extract_from_text`: best-effort role key, level and skills from free
text.  Role: first alias phrase contained in the lowered text; level:
first alias with a word-boundary match; skills: every premium-table token
matched (spaced or raw form), plus explicit certification strings with
the `security+`/`security plus` forms normalized; the skill list is
returned as `sorted(set(...))`. -/
def extract_from_text (text : String) : Extracted :=
  let t := text.toList.map lowerChar
  let role_key := (ROLE_ALIASES.find? fun kv => hasSub kv.1.toList t).map (·.2)
  let level := (LEVEL_ALIASES.find? fun kv => wbSearch kv.1.toList t).map (·.2)
  let detected :=
    SKILL_PREMIUM.filterMap fun kv =>
      if hasSub (underscoreToSpace kv.1.toList) t || hasSub kv.1.toList t then
        some kv.1
      else none
  let detected := detected ++
    (CERT_STRINGS.filterMap fun cert =>
      if hasSub cert.toList t then
        some (if hasSub "security".toList cert.toList then "security_plus"
              else cert)
      else none)
  { role_key := role_key, level := level, skills := sortedDedup detected }

-- ---------------------------------------------------------------------------
-- Model 2: CAGR
-- ---------------------------------------------------------------------------

/-- The role's CAGR: `CAGR_BY_ROLE.get(role_key, CAGR_BY_ROLE["default"])`.
The "default" key is present in the table (see `cagr_default_present`),
so the inner indexing never fails; its `getD 0` branch is dead. -/
def cagrOf (role_key : String) : ℚ :=
  (alookup role_key CAGR_BY_ROLE).getD ((alookup "default" CAGR_BY_ROLE).getD 0)

/-- `apply_cagr` with the default `years=2` kept as a parameter. -/
def apply_cagr (low high : ℚ) (role_key : String) (years : ℕ := 2) : ℚ × ℚ :=
  let cagr := cagrOf role_key
  let factor := (1 + cagr) ^ years
  (low * factor, high * factor)

-- ---------------------------------------------------------------------------
-- Model 3: inflation
-- ---------------------------------------------------------------------------

def apply_inflation (low high : ℚ) : ℚ × ℚ :=
  (low * INFLATION_2024_TO_2026, high * INFLATION_2024_TO_2026)

-- ---------------------------------------------------------------------------
-- Model 4: skills premium
-- ---------------------------------------------------------------------------

/-- `SKILL_PREMIUM.get(s, 0.0)`. -/
def skillPremiumOf (s : String) : ℚ :=
  (alookup s SKILL_PREMIUM).getD 0

/-- `compute_skills_multiplier`: sum premiums, cap at 0.25, damp by 0.85. -/
def compute_skills_multiplier (skills : List String) : ℚ :=
  let total := skills.foldl (fun acc s => acc + skillPremiumOf s) 0
  let total := min total 0.25
  1 + 0.85 * total

-- ---------------------------------------------------------------------------
-- Model 5: geographic multiplier
-- ---------------------------------------------------------------------------

/-- `compute_geo_multiplier`: `GEO_MULTIPLIER.get(key, GEO_MULTIPLIER["DEFAULT"])`
on the stripped, upper-cased state.  The "DEFAULT" key is present (see
`geo_default_present`), so the inner `getD 0` branch is dead. -/
def compute_geo_multiplier (state : String) : ℚ :=
  let key := String.mk (pyStripUpper state)
  (alookup key GEO_MULTIPLIER).getD ((alookup "DEFAULT" GEO_MULTIPLIER).getD 0)

-- ---------------------------------------------------------------------------
-- Model 6: regression surrogate
-- ---------------------------------------------------------------------------

/-- `np.clip(x, lo, hi)`: `lo` if `x < lo`, `hi` if `x > hi` (with `hi`
winning when the bounds cross, as in numpy). -/
def npClip (x lo hi : ℚ) : ℚ :=
  min (max x lo) hi

/-- Roles whose experience leverage is raised to 0.010. -/
def EXPERIENCE_SENSITIVE_ROLES : List String :=
  ["security_architect", "cloud_security_engineer", "devsecops_engineer"]

/-- `regression_adjustment`: level-target deviation times role leverage,
clipped to [-0.05, 0.08], added to 1. -/
def regression_adjustment (role_key level : String) (years_exp : ℚ) : ℚ :=
  let target :=
    (alookup level [("entry", (1 : ℚ)), ("mid", 4), ("senior", 8)]).getD 4
  let delta := years_exp - target
  let leverage : ℚ :=
    if role_key ∈ EXPERIENCE_SENSITIVE_ROLES then 0.010 else 0.008
  1 + npClip (delta * leverage) (-0.05) 0.08

-- ---------------------------------------------------------------------------
-- Normalizers
-- ---------------------------------------------------------------------------

/-- `normalize_role`: exact alias, else first alias phrase contained in
the input, else the space-collapsed input if it is a baseline key, else
the generic default key. -/
def normalize_role (role : String) : String :=
  let r := pyStripLower role
  match alookup (String.mk r) ROLE_ALIASES with
  | some v => v
  | none =>
    match ROLE_ALIASES.find? fun kv => hasSub kv.1.toList r with
    | some kv => kv.2
    | none =>
      let ru := String.mk (spaceToUnderscore r)
      if (alookup ru BASELINES_2024).isSome then ru
      else "cybersecurity_engineer"

/-- `normalize_level`: exact alias, else first alias phrase contained in
the input, else "mid". -/
def normalize_level (level : String) : String :=
  let l := pyStripLower level
  match alookup (String.mk l) LEVEL_ALIASES with
  | some v => v
  | none =>
    match LEVEL_ALIASES.find? fun kv => hasSub kv.1.toList l with
    | some kv => kv.2
    | none => "mid"

-- ---------------------------------------------------------------------------
-- Ensemble
-- ---------------------------------------------------------------------------

/-- Python truthiness of the optional description (`if inp.job_description:`). -/
def descProvided : Option String → Bool
  | none => false
  | some s => !(s == "")

/-- Lines 311–320 of the source: normalize the caller's role and level,
then, when a (truthy) description is present, let extracted values take
priority and union the skills. Returns (role_key, level, skills). -/
def resolveInputs (inp : PredictionInput) : String × String × List String :=
  let role_key := normalize_role inp.role
  let level := normalize_level inp.level
  let skills := inp.skills
  match inp.job_description with
  | some txt =>
    if txt = "" then (role_key, level, skills)
    else
      let ext := extract_from_text txt
      (pyOr ext.role_key role_key, pyOr ext.level level,
       sortedDedup (skills ++ ext.skills))
  | none => (role_key, level, skills)

/-- Lines 322–328 of the source: substitute the generic role key when
the role is not a baseline key, substitute "mid" when the level is not
a key of the role's row, then index the table (fallible indexing is an
`Option`). Returns the keys actually used and the baseline pair. -/
def lookupBaselinePair (rk lvl : String) :
    Option (String × String × ℚ × ℚ) :=
  let role_key := if (alookup rk BASELINES_2024).isSome then rk
                  else "cybersecurity_engineer"
  match alookup role_key BASELINES_2024 with
  | none => none
  | some tbl =>
    let level := if (alookup lvl tbl).isSome then lvl else "mid"
    match alookup level tbl with
    | none => none
    | some p => some (role_key, level, p.1, p.2)

/-- `predict_2026`: the full ensemble.  `weights = weights or DEFAULT_WEIGHTS`
is modelled by an optional argument; a failed dict indexing would be `none`. -/
def predict_2026 (inp : PredictionInput)
    (weights : Option Weights := none) : Option PredictionBreakdown :=
  let w := weights.getD DEFAULT_WEIGHTS
  let rls := resolveInputs inp
  match lookupBaselinePair rls.1 rls.2.1 with
  | none => none
  | some (role_key, level, base_low, base_high) =>
    let cl := apply_cagr base_low base_high role_key
    let cagr_low := cl.1
    let cagr_high := cl.2
    let il := apply_inflation cagr_low cagr_high
    let infl_low := il.1
    let infl_high := il.2
    let s_mult := compute_skills_multiplier rls.2.2
    let g_mult := compute_geo_multiplier inp.state
    let r_mult := regression_adjustment role_key level inp.years_experience
    let a_low := infl_low
    let a_high := infl_high
    let b_low := infl_low * s_mult
    let b_high := infl_high * s_mult
    let d_low := infl_low * s_mult * g_mult
    let d_high := infl_high * s_mult * g_mult
    let e_low := d_low * r_mult
    let e_high := d_high * r_mult
    let w_sk := w.skills
    let w_geo := w.geo
    let w_reg := w.regression
    let low1 := (1 - w_sk) * a_low + w_sk * b_low
    let high1 := (1 - w_sk) * a_high + w_sk * b_high
    let low2 := (1 - w_geo) * low1 + w_geo * d_low
    let high2 := (1 - w_geo) * high1 + w_geo * d_high
    let low := (1 - w_reg) * low2 + w_reg * e_low
    let high := (1 - w_reg) * high2 + w_reg * e_high
    let mid := (low + high) / 2
    some
      { baseline_low := base_low, baseline_high := base_high,
        cagr_low := cagr_low, cagr_high := cagr_high,
        inflation_low := infl_low, inflation_high := infl_high,
        skills_multiplier := s_mult, geo_multiplier := g_mult,
        regression_adjustment := r_mult,
        final_low := low, final_mid := mid, final_high := high }

-- ---------------------------------------------------------------------------
-- Spec-side reference definitions and concrete scenario inputs
-- ---------------------------------------------------------------------------

/-- Modelled from the spec wording for the regression multiplier: target
experience-years per level ("entry"=1, "mid"=4, "senior"=8, default 4).
Reference definition to compare `regression_adjustment` against. -/
def specTarget (lvl : String) : ℚ :=
  if lvl = "entry" then 1
  else if lvl = "mid" then 4
  else if lvl = "senior" then 8
  else 4

/-- Modelled from the spec wording: leverage 0.010 for the fixed
experience-sensitive roles, 0.008 otherwise.  Reference definition to
compare `regression_adjustment` against. -/
def specLeverage (rk : String) : ℚ :=
  if rk = "security_architect" ∨ rk = "cloud_security_engineer" ∨
      rk = "devsecops_engineer" then 0.010
  else 0.008

/-- First demo example of the source (no description). -/
def demoInput : PredictionInput :=
  { role := "Cybersecurity Engineer", level := "Mid", years_experience := 4,
    state := "TX", skills := ["siem", "soar", "zero_trust", "cissp"],
    job_description := none }

/-- The text-extraction scenario description (third demo example). -/
def socDescription : String :=
  "Entry SOC analyst with EDR and SIEM experience. Security+ is a plus."

/-- Third demo example of the source, description included. -/
def socInput : PredictionInput :=
  { role := "SOC Analyst", level := "Entry", years_experience := 1,
    state := "REMOTE", skills := ["siem", "edr", "security_plus"],
    job_description := some socDescription }

/-- An input whose caller-side skills list repeats a premium skill. -/
def dupSkillsInput : PredictionInput :=
  { role := "soc analyst", level := "entry", years_experience := 1,
    state := "REMOTE", skills := ["siem", "siem"], job_description := none }

/-- Weight configuration with the three tunable weights set to 0. -/
def zeroWeights : Weights :=
  { cagr := 0.20, inflation := 0.20, skills := 0, geo := 0, regression := 0 }

/-- Weight configuration with the three tunable weights set to 1. -/
def oneWeights : Weights :=
  { cagr := 0.20, inflation := 0.20, skills := 1, geo := 1, regression := 1 }

-- ---------------------------------------------------------------------------
-- Lemmas: association-list lookup
-- ---------------------------------------------------------------------------

theorem alookup_mem {β : Type} {k : String} {l : List (String × β)} {v : β}
    (h : alookup k l = some v) : (k, v) ∈ l := by
  induction l with
  | nil => simp [alookup] at h
  | cons p rest ih =>
    obtain ⟨k1, v1⟩ := p
    by_cases hk : k = k1
    · simp [alookup, hk] at h
      simp [hk, h]
    · simp [alookup, hk] at h
      exact List.mem_cons_of_mem _ (ih h)

/-- Values of the association list at any key, as a membership fact. -/
theorem alookup_forall {β : Type} {l : List (String × β)} (P : β → Prop)
    (hall : ∀ p ∈ l, P p.2) {k : String} {v : β} (h : alookup k l = some v) :
    P v :=
  hall _ (alookup_mem h)

-- ---------------------------------------------------------------------------
-- Facts about the lookup tables
-- ---------------------------------------------------------------------------

theorem cagr_default_present : alookup "default" CAGR_BY_ROLE = some 0.05 :=
  rfl

theorem geo_default_present : alookup "DEFAULT" GEO_MULTIPLIER = some 1.00 :=
  rfl

theorem default_role_present :
    (alookup "cybersecurity_engineer" BASELINES_2024).isSome := by decide

theorem baselines_mid_present :
    ∀ p ∈ BASELINES_2024, (alookup "mid" p.2).isSome := by decide

theorem baselines_pairs_ordered :
    ∀ p ∈ BASELINES_2024, ∀ q ∈ p.2, 0 ≤ q.2.1 ∧ q.2.1 ≤ q.2.2 := by
  intro p hp
  fin_cases hp <;> (intro q hq; fin_cases hq <;> norm_num)

theorem cagr_vals_nonneg : ∀ p ∈ CAGR_BY_ROLE, 0 ≤ p.2 := by
  intro p hp
  fin_cases hp <;> norm_num

theorem geo_vals_nonneg : ∀ p ∈ GEO_MULTIPLIER, 0 ≤ p.2 := by
  intro p hp
  fin_cases hp <;> norm_num

theorem skill_vals_nonneg : ∀ p ∈ SKILL_PREMIUM, 0 ≤ p.2 := by
  intro p hp
  fin_cases hp <;> norm_num

-- ---------------------------------------------------------------------------
-- Bounds on the individual adjustment factors
-- ---------------------------------------------------------------------------

theorem cagrOf_nonneg (rk : String) : 0 ≤ cagrOf rk := by
  unfold cagrOf
  cases h : alookup rk CAGR_BY_ROLE with
  | none =>
    simp only [h, Option.getD_none, cagr_default_present, Option.getD_some]
    norm_num
  | some v =>
    simp only [h, Option.getD_some]
    simpa using cagr_vals_nonneg _ (alookup_mem h)

theorem skillPremiumOf_nonneg (s : String) : 0 ≤ skillPremiumOf s := by
  unfold skillPremiumOf
  cases h : alookup s SKILL_PREMIUM with
  | none => simp [h]
  | some v =>
    simp only [h, Option.getD_some]
    simpa using skill_vals_nonneg _ (alookup_mem h)

theorem geo_multiplier_nonneg (state : String) :
    0 ≤ compute_geo_multiplier state := by
  unfold compute_geo_multiplier
  cases h : alookup (String.mk (pyStripUpper state)) GEO_MULTIPLIER with
  | none =>
    simp only [h, Option.getD_none, geo_default_present, Option.getD_some]
    norm_num
  | some v =>
    simp only [h, Option.getD_some]
    simpa using geo_vals_nonneg _ (alookup_mem h)

theorem foldl_premium (l : List String) (acc : ℚ) :
    l.foldl (fun a s => a + skillPremiumOf s) acc =
      acc + (l.map skillPremiumOf).sum := by
  induction l generalizing acc with
  | nil => simp
  | cons x xs ih =>
    simp only [List.foldl_cons, List.map_cons, List.sum_cons]
    rw [ih]
    ring

theorem premium_sum_nonneg (l : List String) :
    0 ≤ (l.map skillPremiumOf).sum := by
  apply List.sum_nonneg
  intro x hx
  obtain ⟨s, _, rfl⟩ := List.mem_map.mp hx
  exact skillPremiumOf_nonneg s

theorem compute_skills_multiplier_eq (l : List String) :
    compute_skills_multiplier l =
      1 + 0.85 * min ((l.map skillPremiumOf).sum) 0.25 := by
  unfold compute_skills_multiplier
  rw [foldl_premium]
  norm_num

theorem compute_skills_multiplier_bounds (l : List String) :
    1 ≤ compute_skills_multiplier l ∧
      compute_skills_multiplier l ≤ 1.2125 := by
  rw [compute_skills_multiplier_eq]
  have hmin0 : (0 : ℚ) ≤ min ((l.map skillPremiumOf).sum) 0.25 :=
    le_min (premium_sum_nonneg l) (by norm_num)
  have hmin1 : min ((l.map skillPremiumOf).sum) 0.25 ≤ 0.25 :=
    min_le_right _ _
  constructor
  · nlinarith
  · nlinarith

theorem npClip_bounds (x lo hi : ℚ) (h : lo ≤ hi) :
    lo ≤ npClip x lo hi ∧ npClip x lo hi ≤ hi :=
  ⟨le_min (le_max_right _ _) h, min_le_right _ _⟩

theorem regression_adjustment_bounds (rk lvl : String) (y : ℚ) :
    0.95 ≤ regression_adjustment rk lvl y ∧
      regression_adjustment rk lvl y ≤ 1.08 := by
  unfold regression_adjustment
  have h := npClip_bounds
    ((y - (alookup lvl [("entry", (1 : ℚ)), ("mid", 4), ("senior", 8)]).getD 4) *
      (if rk ∈ EXPERIENCE_SENSITIVE_ROLES then 0.010 else 0.008))
    (-0.05) 0.08 (by norm_num)
  constructor
  · linarith [h.1]
  · linarith [h.2]

-- ---------------------------------------------------------------------------
-- The sequential blend preserves the low ≤ high ordering
-- ---------------------------------------------------------------------------

theorem lerp_mono (w x y x2 y2 : ℚ) (h0 : 0 ≤ w) (h1 : w ≤ 1)
    (hx : x ≤ x2) (hy : y ≤ y2) :
    (1 - w) * x + w * y ≤ (1 - w) * x2 + w * y2 := by
  have hw : (0 : ℚ) ≤ 1 - w := by linarith
  have := mul_le_mul_of_nonneg_left hx hw
  have := mul_le_mul_of_nonneg_left hy h0
  linarith

theorem blend_le (al ah s g r wsk wgeo wreg : ℚ)
    (hah : al ≤ ah) (hs : 0 ≤ s) (hg : 0 ≤ g) (hr : 0 ≤ r)
    (h1 : 0 ≤ wsk) (h2 : wsk ≤ 1) (h3 : 0 ≤ wgeo) (h4 : wgeo ≤ 1)
    (h5 : 0 ≤ wreg) (h6 : wreg ≤ 1) :
    (1 - wreg) * ((1 - wgeo) * ((1 - wsk) * al + wsk * (al * s)) +
        wgeo * (al * s * g)) + wreg * (al * s * g * r) ≤
      (1 - wreg) * ((1 - wgeo) * ((1 - wsk) * ah + wsk * (ah * s)) +
        wgeo * (ah * s * g)) + wreg * (ah * s * g * r) := by
  have hb : al * s ≤ ah * s := mul_le_mul_of_nonneg_right hah hs
  have hd : al * s * g ≤ ah * s * g := mul_le_mul_of_nonneg_right hb hg
  have he : al * s * g * r ≤ ah * s * g * r := mul_le_mul_of_nonneg_right hd hr
  have l1 := lerp_mono wsk al (al * s) ah (ah * s) h1 h2 hah hb
  have l2 := lerp_mono wgeo _ _ _ _ h3 h4 l1 hd
  exact lerp_mono wreg _ _ _ _ h5 h6 l2 he

-- ---------------------------------------------------------------------------
-- Totality of the baseline resolution and of the whole pipeline
-- ---------------------------------------------------------------------------

theorem lookupBaselinePair_isSome (rk lvl : String) :
    (lookupBaselinePair rk lvl).isSome := by
  simp only [lookupBaselinePair]
  have hkey : (alookup (if (alookup rk BASELINES_2024).isSome then rk
      else "cybersecurity_engineer") BASELINES_2024).isSome := by
    split
    · assumption
    · exact default_role_present
  obtain ⟨tbl, htbl⟩ := Option.isSome_iff_exists.mp hkey
  rw [htbl]
  have hlev : (alookup (if (alookup lvl tbl).isSome then lvl else "mid")
      tbl).isSome := by
    split
    · assumption
    · exact baselines_mid_present _ (alookup_mem htbl)
  obtain ⟨p, hp⟩ := Option.isSome_iff_exists.mp hlev
  obtain ⟨lo, hi⟩ := p
  dsimp only
  rw [hp]
  rfl

theorem predict_2026_isSome (inp : PredictionInput) (w : Option Weights) :
    (predict_2026 inp w).isSome := by
  simp only [predict_2026]
  obtain ⟨q, hq⟩ := Option.isSome_iff_exists.mp
    (lookupBaselinePair_isSome (resolveInputs inp).1 (resolveInputs inp).2.1)
  obtain ⟨rk, lvl, lo, hi⟩ := q
  rw [hq]
  rfl

-- ---------------------------------------------------------------------------
-- The final range is ordered for every weight configuration in [0,1]
-- ---------------------------------------------------------------------------

theorem predict_2026_final_ordered (inp : PredictionInput) (w : Weights)
    (b : PredictionBreakdown)
    (h1 : 0 ≤ w.skills) (h2 : w.skills ≤ 1)
    (h3 : 0 ≤ w.geo) (h4 : w.geo ≤ 1)
    (h5 : 0 ≤ w.regression) (h6 : w.regression ≤ 1)
    (hbase : b.baseline_low ≤ b.baseline_high)
    (h : predict_2026 inp (some w) = some b) :
    b.final_low ≤ b.final_mid ∧ b.final_mid ≤ b.final_high := by
  simp only [predict_2026, Option.getD_some] at h
  rcases hlb : lookupBaselinePair (resolveInputs inp).1 (resolveInputs inp).2.1
    with _ | ⟨rk, lvl, lo, hi⟩
  · rw [hlb] at h
    simp at h
  · rw [hlb] at h
    replace h := Option.some.inj h
    subst h
    dsimp only at hbase ⊢
    have hf : (0 : ℚ) ≤ (1 + cagrOf rk) ^ 2 := by positivity
    have hcagr : (apply_cagr lo hi rk).1 ≤ (apply_cagr lo hi rk).2 := by
      show lo * (1 + cagrOf rk) ^ 2 ≤ hi * (1 + cagrOf rk) ^ 2
      exact mul_le_mul_of_nonneg_right hbase hf
    have hinfl : (apply_inflation (apply_cagr lo hi rk).1
        (apply_cagr lo hi rk).2).1 ≤
        (apply_inflation (apply_cagr lo hi rk).1 (apply_cagr lo hi rk).2).2 := by
      show (apply_cagr lo hi rk).1 * INFLATION_2024_TO_2026 ≤
        (apply_cagr lo hi rk).2 * INFLATION_2024_TO_2026
      apply mul_le_mul_of_nonneg_right hcagr
      norm_num [INFLATION_2024_TO_2026]
    have hs0 : 0 ≤ compute_skills_multiplier (resolveInputs inp).2.2 :=
      le_trans zero_le_one (compute_skills_multiplier_bounds _).1
    have hg0 := geo_multiplier_nonneg inp.state
    have hr0 : 0 ≤ regression_adjustment rk lvl inp.years_experience := by
      linarith [(regression_adjustment_bounds rk lvl inp.years_experience).1]
    have hlh := blend_le
      (apply_inflation (apply_cagr lo hi rk).1 (apply_cagr lo hi rk).2).1
      (apply_inflation (apply_cagr lo hi rk).1 (apply_cagr lo hi rk).2).2
      (compute_skills_multiplier (resolveInputs inp).2.2)
      (compute_geo_multiplier inp.state)
      (regression_adjustment rk lvl inp.years_experience)
      w.skills w.geo w.regression
      hinfl hs0 hg0 hr0 h1 h2 h3 h4 h5 h6
    constructor
    · linarith
    · linarith

-- ---------------------------------------------------------------------------
-- Weight extremes: all-zero weights give candidate A, all-one candidate E
-- ---------------------------------------------------------------------------

theorem predict_2026_weights_zero (inp : PredictionInput) (w : Weights)
    (b : PredictionBreakdown)
    (hs : w.skills = 0) (hg : w.geo = 0) (hr : w.regression = 0)
    (h : predict_2026 inp (some w) = some b) :
    b.final_low = b.inflation_low ∧ b.final_high = b.inflation_high := by
  simp only [predict_2026, Option.getD_some] at h
  rcases hlb : lookupBaselinePair (resolveInputs inp).1 (resolveInputs inp).2.1
    with _ | ⟨rk, lvl, lo, hi⟩
  · rw [hlb] at h
    simp at h
  · rw [hlb] at h
    replace h := Option.some.inj h
    subst h
    dsimp only
    rw [hs, hg, hr]
    constructor <;> ring

theorem predict_2026_weights_one (inp : PredictionInput) (w : Weights)
    (b : PredictionBreakdown)
    (hs : w.skills = 1) (hg : w.geo = 1) (hr : w.regression = 1)
    (h : predict_2026 inp (some w) = some b) :
    b.final_low = b.inflation_low * b.skills_multiplier * b.geo_multiplier *
        b.regression_adjustment ∧
      b.final_high = b.inflation_high * b.skills_multiplier *
        b.geo_multiplier * b.regression_adjustment := by
  simp only [predict_2026, Option.getD_some] at h
  rcases hlb : lookupBaselinePair (resolveInputs inp).1 (resolveInputs inp).2.1
    with _ | ⟨rk, lvl, lo, hi⟩
  · rw [hlb] at h
    simp at h
  · rw [hlb] at h
    replace h := Option.some.inj h
    subst h
    dsimp only
    rw [hs, hg, hr]
    constructor <;> ring

-- ---------------------------------------------------------------------------
-- Which skill collection feeds the skills premium
-- ---------------------------------------------------------------------------

theorem predict_2026_skills_mult (inp : PredictionInput) (w : Option Weights)
    (b : PredictionBreakdown) (h : predict_2026 inp w = some b) :
    b.skills_multiplier = compute_skills_multiplier (resolveInputs inp).2.2 := by
  simp only [predict_2026] at h
  rcases hlb : lookupBaselinePair (resolveInputs inp).1 (resolveInputs inp).2.1
    with _ | ⟨rk, lvl, lo, hi⟩
  · rw [hlb] at h
    simp at h
  · rw [hlb] at h
    replace h := Option.some.inj h
    subst h
    rfl

theorem resolveInputs_no_desc (inp : PredictionInput)
    (hjd : inp.job_description = none) :
    resolveInputs inp =
      (normalize_role inp.role, normalize_level inp.level, inp.skills) := by
  simp only [resolveInputs, hjd]

theorem resolveInputs_desc (inp : PredictionInput) (txt : String)
    (hjd : inp.job_description = some txt) (hne : txt ≠ "") :
    resolveInputs inp =
      (pyOr (extract_from_text txt).role_key (normalize_role inp.role),
       pyOr (extract_from_text txt).level (normalize_level inp.level),
       sortedDedup (inp.skills ++ (extract_from_text txt).skills)) := by
  simp only [resolveInputs, hjd, hne, if_false]

theorem role_alias_vals_ne_empty : ∀ p ∈ ROLE_ALIASES, p.2 ≠ "" := by decide

theorem level_alias_vals_ne_empty : ∀ p ∈ LEVEL_ALIASES, p.2 ≠ "" := by
  decide

theorem extract_role_key_ne_empty (t : String) (k : String)
    (h : (extract_from_text t).role_key = some k) : k ≠ "" := by
  simp only [extract_from_text] at h
  obtain ⟨kv, hfind, hk⟩ := Option.map_eq_some'.mp h
  subst hk
  exact role_alias_vals_ne_empty _ (List.mem_of_find?_eq_some hfind)

theorem extract_level_ne_empty (t : String) (k : String)
    (h : (extract_from_text t).level = some k) : k ≠ "" := by
  simp only [extract_from_text] at h
  obtain ⟨kv, hfind, hk⟩ := Option.map_eq_some'.mp h
  subst hk
  exact level_alias_vals_ne_empty _ (List.mem_of_find?_eq_some hfind)

theorem pyOr_some_ne (k f : String) (hk : k ≠ "") : pyOr (some k) f = k := by
  simp [pyOr, hk]

-- ---------------------------------------------------------------------------
-- Further helper lemmas
-- ---------------------------------------------------------------------------

theorem csm_mono_append (S : List String) (x : String) :
    compute_skills_multiplier S ≤ compute_skills_multiplier (S ++ [x]) := by
  rw [compute_skills_multiplier_eq, compute_skills_multiplier_eq]
  have hx := skillPremiumOf_nonneg x
  have hsum : ((S.map skillPremiumOf).sum : ℚ) ≤
      ((S ++ [x]).map skillPremiumOf).sum := by
    rw [List.map_append, List.sum_append]
    simp
    linarith
  have hmin := min_le_min hsum (le_refl (0.25 : ℚ))
  nlinarith

theorem regression_adjustment_eq (rk lvl : String) (y : ℚ) :
    regression_adjustment rk lvl y =
      1 + npClip ((y - specTarget lvl) * specLeverage rk) (-0.05) 0.08 := by
  have ht : (alookup lvl [("entry", (1 : ℚ)), ("mid", 4), ("senior", 8)]).getD 4
      = specTarget lvl := by
    simp only [alookup, specTarget]
    split_ifs <;> rfl
  have hl : (if rk ∈ EXPERIENCE_SENSITIVE_ROLES then (0.010 : ℚ) else 0.008)
      = specLeverage rk := by
    simp only [specLeverage, EXPERIENCE_SENSITIVE_ROLES, List.mem_cons,
      List.mem_singleton, List.not_mem_nil, or_false]
  simp only [regression_adjustment, ht, hl]

theorem lookupBaselinePair_ordered (rk0 lvl0 rk lvl : String) (lo hi : ℚ)
    (h : lookupBaselinePair rk0 lvl0 = some (rk, lvl, lo, hi)) :
    0 ≤ lo ∧ lo ≤ hi := by
  simp only [lookupBaselinePair] at h
  rcases htbl : alookup (if (alookup rk0 BASELINES_2024).isSome then rk0
      else "cybersecurity_engineer") BASELINES_2024 with _ | tbl
  · rw [htbl] at h
    simp at h
  · rw [htbl] at h
    dsimp only at h
    rcases hp : alookup (if (alookup lvl0 tbl).isSome then lvl0 else "mid") tbl
      with _ | p
    · rw [hp] at h
      simp at h
    · rw [hp] at h
      obtain ⟨plo, phi⟩ := p
      simp only [Option.some.injEq, Prod.mk.injEq] at h
      obtain ⟨-, -, hlo, hhi⟩ := h
      subst hlo
      subst hhi
      have := baselines_pairs_ordered _ (alookup_mem htbl) _ (alookup_mem hp)
      exact this

theorem predict_2026_baseline_ordered (inp : PredictionInput)
    (w : Option Weights) (b : PredictionBreakdown)
    (h : predict_2026 inp w = some b) :
    0 ≤ b.baseline_low ∧ b.baseline_low ≤ b.baseline_high := by
  simp only [predict_2026] at h
  rcases hlb : lookupBaselinePair (resolveInputs inp).1 (resolveInputs inp).2.1
    with _ | ⟨rk, lvl, lo, hi⟩
  · rw [hlb] at h
    simp at h
  · rw [hlb] at h
    replace h := Option.some.inj h
    subst h
    exact lookupBaselinePair_ordered _ _ rk lvl lo hi hlb

-- ---------------------------------------------------------------------------
-- Claims
-- ---------------------------------------------------------------------------

/-- C1: for every `PredictionInput` whose resolved baseline pair is ordered
(low ≤ high) and every weight configuration whose skills, geo and
regression weights all lie in [0,1], the `PredictionBreakdown` returned by
`predict_2026` satisfies `final_low ≤ final_mid ≤ final_high`. -/
theorem C1_final_range_ordered (inp : PredictionInput) (w : Weights)
    (b : PredictionBreakdown)
    (h1 : 0 ≤ w.skills) (h2 : w.skills ≤ 1)
    (h3 : 0 ≤ w.geo) (h4 : w.geo ≤ 1)
    (h5 : 0 ≤ w.regression) (h6 : w.regression ≤ 1)
    (hbase : b.baseline_low ≤ b.baseline_high)
    (h : predict_2026 inp (some w) = some b) :
    b.final_low ≤ b.final_mid ∧ b.final_mid ≤ b.final_high :=
  predict_2026_final_ordered inp w b h1 h2 h3 h4 h5 h6 hbase h

/-- Witness for C1 at the source's first demo example with the default
weight configuration. -/
theorem C1_final_range_ordered_witness :
    ∃ b, predict_2026 demoInput (some DEFAULT_WEIGHTS) = some b ∧
      b.final_low ≤ b.final_mid ∧ b.final_mid ≤ b.final_high := by
  rcases h : predict_2026 demoInput (some DEFAULT_WEIGHTS) with _ | b
  · have hs := predict_2026_isSome demoInput (some DEFAULT_WEIGHTS)
    rw [h] at hs
    simp at hs
  · refine ⟨b, rfl, ?_⟩
    exact C1_final_range_ordered demoInput DEFAULT_WEIGHTS b
      (by norm_num [DEFAULT_WEIGHTS]) (by norm_num [DEFAULT_WEIGHTS])
      (by norm_num [DEFAULT_WEIGHTS]) (by norm_num [DEFAULT_WEIGHTS])
      (by norm_num [DEFAULT_WEIGHTS]) (by norm_num [DEFAULT_WEIGHTS])
      (predict_2026_baseline_ordered demoInput (some DEFAULT_WEIGHTS) b h).2 h

/-- C2: `compute_skills_multiplier` returns exactly
`1 + 0.85 * min (sum of table premiums) 0.25`, where a token absent from
the premium table contributes 0, and the result lies in [1, 1.2125]. -/
theorem C2_skills_multiplier_formula (skills : List String) :
    compute_skills_multiplier skills =
      1 + 0.85 * min ((skills.map skillPremiumOf).sum) 0.25 ∧
    (∀ s, alookup s SKILL_PREMIUM = none → skillPremiumOf s = 0) ∧
    1 ≤ compute_skills_multiplier skills ∧
    compute_skills_multiplier skills ≤ 1.2125 := by
  refine ⟨compute_skills_multiplier_eq skills, ?_,
    (compute_skills_multiplier_bounds skills).1,
    (compute_skills_multiplier_bounds skills).2⟩
  intro s hs
  simp [skillPremiumOf, hs]

/-- Witness for C2: an unknown token contributes zero and the bound holds
on a concrete list. -/
theorem C2_skills_multiplier_formula_witness :
    skillPremiumOf "blockchain" = 0 ∧
      1 ≤ compute_skills_multiplier ["siem", "blockchain"] :=
  ⟨(C2_skills_multiplier_formula ["siem", "blockchain"]).2.1 "blockchain" rfl,
   (C2_skills_multiplier_formula ["siem", "blockchain"]).2.2.1⟩

/-- C3: with the three tunable weights at 0 the final pair equals candidate
A (the post-growth, post-inflation pair); with all three at 1 it equals
candidate E (that pair times the skills, geo and regression multipliers). -/
theorem C3_weight_extremes :
    (∀ (inp : PredictionInput) (w : Weights) (b : PredictionBreakdown),
        w.skills = 0 → w.geo = 0 → w.regression = 0 →
        predict_2026 inp (some w) = some b →
        b.final_low = b.inflation_low ∧ b.final_high = b.inflation_high) ∧
    (∀ (inp : PredictionInput) (w : Weights) (b : PredictionBreakdown),
        w.skills = 1 → w.geo = 1 → w.regression = 1 →
        predict_2026 inp (some w) = some b →
        b.final_low = b.inflation_low * b.skills_multiplier *
            b.geo_multiplier * b.regression_adjustment ∧
          b.final_high = b.inflation_high * b.skills_multiplier *
            b.geo_multiplier * b.regression_adjustment) :=
  ⟨fun inp w b hs hg hr h => predict_2026_weights_zero inp w b hs hg hr h,
   fun inp w b hs hg hr h => predict_2026_weights_one inp w b hs hg hr h⟩

/-- Witness for C3 at the first demo example, at both weight extremes. -/
theorem C3_weight_extremes_witness :
    (∃ b, predict_2026 demoInput (some zeroWeights) = some b ∧
        b.final_low = b.inflation_low ∧ b.final_high = b.inflation_high) ∧
    (∃ b, predict_2026 demoInput (some oneWeights) = some b ∧
        b.final_low = b.inflation_low * b.skills_multiplier *
            b.geo_multiplier * b.regression_adjustment ∧
          b.final_high = b.inflation_high * b.skills_multiplier *
            b.geo_multiplier * b.regression_adjustment) := by
  constructor
  · rcases h : predict_2026 demoInput (some zeroWeights) with _ | b
    · have hs := predict_2026_isSome demoInput (some zeroWeights)
      rw [h] at hs
      simp at hs
    · exact ⟨b, rfl, C3_weight_extremes.1 demoInput zeroWeights b rfl rfl rfl h⟩
  · rcases h : predict_2026 demoInput (some oneWeights) with _ | b
    · have hs := predict_2026_isSome demoInput (some oneWeights)
      rw [h] at hs
      simp at hs
    · exact ⟨b, rfl, C3_weight_extremes.2 demoInput oneWeights b rfl rfl rfl h⟩

/-- C4: `predict_2026` is total: for every input (with the default weight
configuration) it returns a breakdown, and the baseline-table resolution
step itself never fails for any role/level pair. -/
theorem C4_total :
    (∀ inp : PredictionInput, (predict_2026 inp none).isSome) ∧
    (∀ rk lvl : String, (lookupBaselinePair rk lvl).isSome) :=
  ⟨fun inp => predict_2026_isSome inp none,
   fun rk lvl => lookupBaselinePair_isSome rk lvl⟩

/-- C5: a role matching no alias (exactly or by containment) whose
space-collapsed form is no baseline key normalizes to
"cybersecurity_engineer"; a level matching no alias normalizes to "mid";
a location absent from the geo table (including the empty string) gets
multiplier 1. -/
theorem C5_unknown_input_fallbacks :
    (∀ role : String,
        alookup (String.mk (pyStripLower role)) ROLE_ALIASES = none →
        ROLE_ALIASES.find? (fun kv => hasSub kv.1.toList (pyStripLower role))
          = none →
        alookup (String.mk (spaceToUnderscore (pyStripLower role)))
          BASELINES_2024 = none →
        normalize_role role = "cybersecurity_engineer") ∧
    (∀ level : String,
        alookup (String.mk (pyStripLower level)) LEVEL_ALIASES = none →
        LEVEL_ALIASES.find? (fun kv => hasSub kv.1.toList (pyStripLower level))
          = none →
        normalize_level level = "mid") ∧
    (∀ state : String,
        alookup (String.mk (pyStripUpper state)) GEO_MULTIPLIER = none →
        compute_geo_multiplier state = 1) ∧
    compute_geo_multiplier "" = 1 := by
  refine ⟨?_, ?_, ?_, ?_⟩
  · intro role h1 h2 h3
    simp only [normalize_role, h1, h2, h3, Option.isSome_none]
    simp
  · intro level h1 h2
    simp only [normalize_level, h1, h2]
  · intro state h1
    simp only [compute_geo_multiplier, h1, Option.getD_none,
      geo_default_present, Option.getD_some]
    norm_num
  · have h1 : alookup (String.mk (pyStripUpper "")) GEO_MULTIPLIER = none :=
      rfl
    simp only [compute_geo_multiplier, h1, Option.getD_none,
      geo_default_present, Option.getD_some]
    norm_num

/-- Witness for C5 at concrete unknown role, level and location strings. -/
theorem C5_unknown_input_fallbacks_witness :
    normalize_role "quantum gardener" = "cybersecurity_engineer" ∧
    normalize_level "wizard" = "mid" ∧
    compute_geo_multiplier "ZZ" = 1 :=
  ⟨C5_unknown_input_fallbacks.1 "quantum gardener" rfl rfl rfl,
   C5_unknown_input_fallbacks.2.1 "wizard" rfl rfl,
   C5_unknown_input_fallbacks.2.2.1 "ZZ" rfl⟩

/-- C6: `regression_adjustment` equals
`1 + clamp((years - target) * leverage, -0.05, 0.08)` with the level
targets and role leverages stated by the spec, and always lies in
[0.95, 1.08]. -/
theorem C6_regression_formula (rk lvl : String) (y : ℚ) :
    regression_adjustment rk lvl y =
      1 + npClip ((y - specTarget lvl) * specLeverage rk) (-0.05) 0.08 ∧
    0.95 ≤ regression_adjustment rk lvl y ∧
    regression_adjustment rk lvl y ≤ 1.08 :=
  ⟨regression_adjustment_eq rk lvl y, regression_adjustment_bounds rk lvl y⟩

/-- C7: with a non-empty description, the extractor's role key and level
are used exactly when found (caller's normalized values are the fallback),
and the skill collection feeding the skills premium is the deduplicated
union of caller-supplied and extracted skills. -/
theorem C7_extraction_priority (inp : PredictionInput) (txt : String)
    (hjd : inp.job_description = some txt) (hne : txt ≠ "") :
    ((extract_from_text txt).role_key = none →
        (resolveInputs inp).1 = normalize_role inp.role) ∧
    (∀ k, (extract_from_text txt).role_key = some k →
        (resolveInputs inp).1 = k) ∧
    ((extract_from_text txt).level = none →
        (resolveInputs inp).2.1 = normalize_level inp.level) ∧
    (∀ k, (extract_from_text txt).level = some k →
        (resolveInputs inp).2.1 = k) ∧
    (resolveInputs inp).2.2 =
        sortedDedup (inp.skills ++ (extract_from_text txt).skills) ∧
    (∀ (w : Option Weights) (b : PredictionBreakdown),
        predict_2026 inp w = some b →
        b.skills_multiplier = compute_skills_multiplier
          (sortedDedup (inp.skills ++ (extract_from_text txt).skills))) := by
  have hres := resolveInputs_desc inp txt hjd hne
  refine ⟨?_, ?_, ?_, ?_, ?_, ?_⟩
  · intro h0
    rw [hres]
    dsimp only
    rw [h0]
    rfl
  · intro k hk
    rw [hres]
    dsimp only
    rw [hk]
    exact pyOr_some_ne k _ (extract_role_key_ne_empty txt k hk)
  · intro h0
    rw [hres]
    dsimp only
    rw [h0]
    rfl
  · intro k hk
    rw [hres]
    dsimp only
    rw [hk]
    exact pyOr_some_ne k _ (extract_level_ne_empty txt k hk)
  · rw [hres]
  · intro w b h
    rw [predict_2026_skills_mult inp w b h, hres]

/-- Witness for C7 at the third demo example. -/
theorem C7_extraction_priority_witness :
    (resolveInputs socInput).2.2 =
      sortedDedup (socInput.skills ++ (extract_from_text socDescription).skills) :=
  (C7_extraction_priority socInput socDescription rfl
    (by decide)).2.2.2.2.1

/-- C8: adding a skill never decreases the skills multiplier, and the
result never exceeds 1.2125. -/
theorem C8_skills_monotone (S : List String) (x : String) :
    compute_skills_multiplier S ≤ compute_skills_multiplier (S ++ [x]) ∧
    compute_skills_multiplier (S ++ [x]) ≤ 1.2125 :=
  ⟨csm_mono_append S x, (compute_skills_multiplier_bounds (S ++ [x])).2⟩

set_option maxRecDepth 10000

/-- C9: on "Entry SOC analyst with EDR and SIEM experience. Security+ is a
plus." the extractor finds the tokens "siem", "edr" and "security_plus"
and the entry-level canonical key. -/
theorem C9_extraction_scenario :
    "siem" ∈ (extract_from_text socDescription).skills ∧
    "edr" ∈ (extract_from_text socDescription).skills ∧
    "security_plus" ∈ (extract_from_text socDescription).skills ∧
    (extract_from_text socDescription).level = some "entry" := by decide

/-- C10: with no description, the caller's skills list reaches
`compute_skills_multiplier` without deduplication, so a premium skill
listed twice counts twice: on a concrete input the multiplier strictly
exceeds the one computed from the deduplicated list. -/
theorem C10_duplicate_skills_count_twice :
    (∀ (inp : PredictionInput) (w : Option Weights) (b : PredictionBreakdown),
        inp.job_description = none → predict_2026 inp w = some b →
        b.skills_multiplier = compute_skills_multiplier inp.skills) ∧
    (∃ b, predict_2026 dupSkillsInput none = some b ∧
        compute_skills_multiplier (sortedDedup dupSkillsInput.skills) <
          b.skills_multiplier) := by
  constructor
  · intro inp w b hjd h
    rw [predict_2026_skills_mult inp w b h, resolveInputs_no_desc inp hjd]
  · rcases h : predict_2026 dupSkillsInput none with _ | b
    · have hs := predict_2026_isSome dupSkillsInput none
      rw [h] at hs
      simp at hs
    · refine ⟨b, rfl, ?_⟩
      rw [predict_2026_skills_mult dupSkillsInput none b h,
        resolveInputs_no_desc dupSkillsInput rfl]
      have e1 : sortedDedup dupSkillsInput.skills = ["siem"] := rfl
      have e2 : dupSkillsInput.skills = ["siem", "siem"] := rfl
      rw [e1]
      dsimp only
      rw [e2, compute_skills_multiplier_eq, compute_skills_multiplier_eq]
      have hsiem : skillPremiumOf "siem" = 0.03 := rfl
      have m1 : ((["siem"].map skillPremiumOf).sum : ℚ) = 0.03 := by
        simp [hsiem]
      have m2 : ((["siem", "siem"].map skillPremiumOf).sum : ℚ) = 0.06 := by
        simp [hsiem]
        norm_num
      rw [m1, m2]
      have hm1 : min (0.03 : ℚ) 0.25 = 0.03 := min_eq_left (by norm_num)
      have hm2 : min (0.06 : ℚ) 0.25 = 0.06 := min_eq_left (by norm_num)
      rw [hm1, hm2]
      norm_num

/-- Witness for C10's universally quantified part at a concrete input. -/
theorem C10_duplicate_skills_count_twice_witness :
    ∃ b, predict_2026 dupSkillsInput none = some b ∧
      b.skills_multiplier = compute_skills_multiplier dupSkillsInput.skills := by
  rcases h : predict_2026 dupSkillsInput none with _ | b
  · have hs := predict_2026_isSome dupSkillsInput none
    rw [h] at hs
    simp at hs
  · exact ⟨b, rfl,
      C10_duplicate_skills_count_twice.1 dupSkillsInput none b rfl h⟩

end Salary
